import Mathlib

/-!
Verification of the burn-rs disk provisioning pipeline (src/main.rs).

The source is a single Rust file.  We give a shallow embedding of its pure
computations (geometry, label normalization, FAT label padding) and of its
effectful stages (MBR table write, GPT table write, the image copy loop, and
the stage sequencing of the orchestrator) as explicit state-passing functions.
Machine integers are modelled as `Nat` with explicit reductions modulo
`2 ^ 32` / `2 ^ 64` exactly where the source casts or may wrap.
-/

set_option maxRecDepth 8000

/-- Modulus of the Rust `u32` type. -/
def U32_MOD : Nat := 4294967296

/-- Modulus of the Rust `u64` type. -/
def U64_MOD : Nat := 18446744073709551616

/-! ## Geometry (new_dos_mbr, lines 55-62)

```rust
let ss = 512;
let iso_size = iso_size + 512u64;        // u64 addition (wraps mod 2^64)
...
let sectors = (iso_size / ss) as u32;    // u64 floor division, truncating cast
```
-/

/-- Sector count computed by `new_dos_mbr` from the original payload size:
`((p + 512) mod 2^64) / 512`, truncated to `u32`. -/
def planSectors (iso_size : Nat) : Nat :=
  (((iso_size + 512) % U64_MOD) / 512) % U32_MOD

/-- Sector count as the spec words it: `ceil((payload_size + sector_size) / sector_size)`. -/
def specCeilSectors (payload_size sector_size : Nat) : Nat :=
  (payload_size + sector_size + (sector_size - 1)) / sector_size

/-- C2 (counterexample): at payload `2^41` bytes (2 TiB) the `as u32` cast in the
source truncates the sector count to 1, so the planned partition does not cover
the payload. -/
theorem planSectors_overflow_cex :
    ¬ (planSectors 2199023255552 * 512 ≥ 2199023255552) := by
  decide

/-- C2 (amended): for every payload `p > 0` whose padded sector count fits in a
`u32` (payloads below 2 TiB), the planned sector count covers the payload:
`planSectors p * 512 ≥ p`. -/
theorem planSectors_covers_payload (p : Nat) (hp : 0 < p)
    (hfit : (p + 512) / 512 < U32_MOD) :
    planSectors p * 512 ≥ p := by
  unfold planSectors U32_MOD U64_MOD at *
  omega

/-- C2 witness: the amended bound holds at the concrete payload 1000. -/
theorem planSectors_covers_payload_witness :
    planSectors 1000 * 512 ≥ 1000 :=
  planSectors_covers_payload 1000 (by decide) (by decide)

/-- C3 (counterexample): at payload 1 the source computes 1 sector
(floor division), while the ceiling formula of the spec gives 2. -/
theorem planSectors_not_ceil_cex :
    planSectors 1 ≠ specCeilSectors 1 512 := by
  decide

/-- C3 (amended): the sector size is fixed at 512 and the source computes the
floor, not the ceiling: whenever the result fits in a `u32`,
`planSectors p = p / 512 + 1` (one more than the number of whole 512-byte
sectors of the payload); this equals `ceil((p + 512)/512)` only when
`512 ∣ p`. -/
theorem planSectors_eq_floor_succ (p : Nat)
    (hfit : p / 512 + 1 < U32_MOD) :
    planSectors p = p / 512 + 1 := by
  unfold planSectors U32_MOD U64_MOD at *
  omega

/-- C3 witness: the amended formula holds at the concrete payload 1000. -/
theorem planSectors_eq_floor_succ_witness :
    planSectors 1000 = 1000 / 512 + 1 :=
  planSectors_eq_floor_succ 1000 (by decide)

/-! ## Legacy MBR table write (new_dos_mbr, lines 53-76)

The `mbrman` structures used by the source are embedded below.  An entry is
unused exactly when its system byte is 0 (`mbrman::MBRPartitionEntry::is_used`
is `sys > 0`).  `MBR::new_from` builds a fresh table (all four entries empty)
with the given sector size and disk signature, taking the disk size from the
device.  The device is modelled as its size in sectors plus the log of
512-byte sector-0 commits performed by `write_into`, most recent last. -/

/-- A CHS address as stored in an MBR entry. -/
structure CHS where
  c : Nat
  h : Nat
  s : Nat
deriving DecidableEq, Repr

/-- The empty/unused CHS marker (`mbrman::CHS::empty`). -/
def CHS.empty : CHS := ⟨0, 0, 0⟩

/-- One of the four primary-partition entries of a legacy MBR
(`mbrman::MBRPartitionEntry`). -/
structure MBRPartitionEntry where
  boot : Nat
  first_chs : CHS
  sys : Nat
  last_chs : CHS
  starting_lba : Nat
  sectors : Nat
deriving DecidableEq, Repr

/-- The all-zero unused entry. -/
def MBRPartitionEntry.emptyEntry : MBRPartitionEntry :=
  ⟨0, CHS.empty, 0, CHS.empty, 0, 0⟩

/-- `mbrman`: an entry is unused iff its system byte is 0. -/
def MBRPartitionEntry.is_unused (e : MBRPartitionEntry) : Bool :=
  e.sys == 0

/-- The in-memory MBR of `mbrman`: header data (sector size, disk signature,
disk size in sectors captured from the device) plus the four primary slots,
indexed 1 to 4 as in `mbr[i]`. -/
structure MBRTable where
  sector_size : Nat
  disk_signature : Nat × Nat × Nat × Nat
  disk_size : Nat
  p1 : MBRPartitionEntry
  p2 : MBRPartitionEntry
  p3 : MBRPartitionEntry
  p4 : MBRPartitionEntry
deriving DecidableEq, Repr

/-- Slot read `mbr[i]` for `i` in 1..4. -/
def MBRTable.get (m : MBRTable) : Nat → MBRPartitionEntry
  | 1 => m.p1
  | 2 => m.p2
  | 3 => m.p3
  | 4 => m.p4
  | _ => MBRPartitionEntry.emptyEntry

/-- Slot assignment `mbr[i] = e` for `i` in 1..4. -/
def MBRTable.setSlot (m : MBRTable) (i : Nat) (e : MBRPartitionEntry) : MBRTable :=
  match i with
  | 1 => { m with p1 := e }
  | 2 => { m with p2 := e }
  | 3 => { m with p3 := e }
  | 4 => { m with p4 := e }
  | _ => m

/-- `mbrman::MBR::new_from`: a fresh table with the given sector size and disk
signature, all four entries unused, disk size read from the device. -/
def MBRTable.new_from (disk_size sector_size : Nat) (sig : Nat × Nat × Nat × Nat) :
    MBRTable :=
  { sector_size := sector_size
    disk_signature := sig
    disk_size := disk_size
    p1 := MBRPartitionEntry.emptyEntry
    p2 := MBRPartitionEntry.emptyEntry
    p3 := MBRPartitionEntry.emptyEntry
    p4 := MBRPartitionEntry.emptyEntry }

/-- Source line 60: `mbr.iter().find(|(i,p)| p.is_unused()).map(|(i,_)| i)` —
the first index in 1..4 whose entry is unused. -/
def findFreeSlot (m : MBRTable) : Option Nat :=
  [1, 2, 3, 4].find? (fun i => (m.get i).is_unused)

/-- Modelled from the `mbrman` crate contract of `find_optimal_place`: the
lowest starting LBA at least 1 (sector 0 holds the MBR itself) of a free gap
of at least `sectors` sectors, or `none` when no such gap exists.  Candidate
gap starts are LBA 1 and the first sector past each used partition. -/
def MBRTable.find_optimal_place (m : MBRTable) (sectors : Nat) : Option Nat :=
  let used := [m.p1, m.p2, m.p3, m.p4].filter (fun e => !e.is_unused)
  let candidates := 1 :: used.map (fun e => e.starting_lba + e.sectors)
  let fits := fun c => decide (c + sectors ≤ m.disk_size) &&
    used.all (fun e =>
      decide (c + sectors ≤ e.starting_lba) || decide (e.starting_lba + e.sectors ≤ c))
  (candidates.filter fits).min?

/-- The device as seen by `new_dos_mbr`: its size in sectors and the log of
sector-0 commits (`MBR::write_into` serializes the full 512-byte table to
sector 0), most recent last. -/
structure MBRDisk where
  sizeSectors : Nat
  sector0Log : List MBRTable
deriving DecidableEq, Repr

/-- `mbrman::MBR::write_into`: commit the table to sector 0 of the device. -/
def MBRDisk.write_into (d : MBRDisk) (m : MBRTable) : MBRDisk :=
  { d with sector0Log := d.sector0Log ++ [m] }

/-- The two abort points of `new_dos_mbr`, both `.expect` panics in the
source: no free primary slot, and no placement large enough. -/
inductive MbrErr where
  | noFreePartition
  | noPlace
deriving DecidableEq, Repr

/-- Lines 59-74 of the source, generalized over the in-memory table `m` (the
source always passes the fresh table built on line 58): commit `m` to the
device, find the first unused slot, find a placement, populate the slot
(boot inactive, empty CHS, type 0x83, planned LBA and sector count) and
commit again. -/
def mbr_write_step (m : MBRTable) (d : MBRDisk) (iso_size : Nat) :
    MBRDisk × Except MbrErr Unit :=
  let d1 := d.write_into m
  match findFreeSlot m with
  | none => (d1, Except.error MbrErr.noFreePartition)
  | some free_part_number =>
    let sectors := planSectors iso_size
    match m.find_optimal_place sectors with
    | none => (d1, Except.error MbrErr.noPlace)
    | some starting_lba =>
      let m2 := m.setSlot free_part_number
        { boot := 0
          first_chs := CHS.empty
          sys := 0x83
          last_chs := CHS.empty
          starting_lba := starting_lba
          sectors := sectors }
      (d1.write_into m2, Except.ok ())

/-- `new_dos_mbr` (lines 53-76): build a fresh table with sector size 512 and
disk signature `[0xff; 4]` from the device, then run the write step. -/
def new_dos_mbr (d : MBRDisk) (iso_size : Nat) : MBRDisk × Except MbrErr Unit :=
  mbr_write_step (MBRTable.new_from d.sizeSectors 512 (0xff, 0xff, 0xff, 0xff)) d iso_size

/-- The entry built on lines 66-73 of the source: boot flag inactive, empty
CHS fields, system byte 0x83, the planned starting LBA and sector count. -/
def plannedEntry (lba sectors : Nat) : MBRPartitionEntry :=
  ⟨0, CHS.empty, 0x83, CHS.empty, lba, sectors⟩

/-- A concrete table with all four primary slots occupied (type 0x83). -/
def fullTable : MBRTable :=
  { sector_size := 512
    disk_signature := (0xff, 0xff, 0xff, 0xff)
    disk_size := 64
    p1 := ⟨0, CHS.empty, 0x83, CHS.empty, 1, 10⟩
    p2 := ⟨0, CHS.empty, 0x83, CHS.empty, 11, 10⟩
    p3 := ⟨0, CHS.empty, 0x83, CHS.empty, 21, 10⟩
    p4 := ⟨0, CHS.empty, 0x83, CHS.empty, 31, 10⟩ }

/-- A concrete 64-sector device with an empty commit log. -/
def disk0 : MBRDisk := ⟨64, []⟩

/-- C4 (counterexample): on a layout with all four slots occupied the write
step does reach the failure exit, but the device has already been written:
its sector-0 commit log is no longer the initial one, refuting the claim that
this failure path performs no device write. -/
theorem mbr_full_layout_cex :
    ¬ ((mbr_write_step fullTable disk0 1000).1.sector0Log = disk0.sector0Log) := by
  decide

/-- C4 (amended): on a layout with all four slots occupied the write step
fails with the no-free-partition abort (an `.expect` panic in the source, not
a returned `NoFreeSlot` value), but only after the table has been committed
to sector 0 once: the device ends exactly one write richer. -/
theorem mbr_full_layout_fails_after_write (m : MBRTable) (d : MBRDisk) (p : Nat)
    (h1 : (m.get 1).is_unused = false) (h2 : (m.get 2).is_unused = false)
    (h3 : (m.get 3).is_unused = false) (h4 : (m.get 4).is_unused = false) :
    mbr_write_step m d p = (d.write_into m, Except.error MbrErr.noFreePartition) := by
  unfold mbr_write_step findFreeSlot
  simp [List.find?, h1, h2, h3, h4]

/-- C4 witness: the amended statement at the concrete full layout. -/
theorem mbr_full_layout_fails_after_write_witness :
    mbr_write_step fullTable disk0 1000 =
      (disk0.write_into fullTable, Except.error MbrErr.noFreePartition) :=
  mbr_full_layout_fails_after_write fullTable disk0 1000
    (by decide) (by decide) (by decide) (by decide)

/-- A successful `findFreeSlot` returns a slot index in 1..4 that is unused,
and every earlier slot is used. -/
theorem findFreeSlot_cases (m : MBRTable) (i : Nat) (h : findFreeSlot m = some i) :
    i ∈ [1, 2, 3, 4] ∧ (m.get i).is_unused = true ∧
      ∀ j, j ∈ [1, 2, 3, 4] → j < i → (m.get j).is_unused = false := by
  unfold findFreeSlot at h
  cases h1 : (m.get 1).is_unused <;> cases h2 : (m.get 2).is_unused <;>
    cases h3 : (m.get 3).is_unused <;> cases h4 : (m.get 4).is_unused <;>
    simp [List.find?, h1, h2, h3, h4] at h <;> subst h <;>
    refine ⟨by simp, by assumption, ?_⟩ <;> intro j hj hlt <;>
    fin_cases hj <;> simp_all

/-- C6: the write step on a layout with an unused slot populates exactly the
first unused slot with the planned entry (boot inactive, type 0x83, empty CHS,
planned LBA and sector count) and leaves the other three entries unchanged;
the populated table is what gets committed. -/
theorem mbr_populates_first_unused (m : MBRTable) (d : MBRDisk) (p i lba : Nat)
    (hfree : findFreeSlot m = some i)
    (hplace : m.find_optimal_place (planSectors p) = some lba) :
    (m.get i).is_unused = true ∧
    (∀ j, j ∈ [1, 2, 3, 4] → j < i → (m.get j).is_unused = false) ∧
    mbr_write_step m d p =
      ((d.write_into m).write_into (m.setSlot i (plannedEntry lba (planSectors p))),
        Except.ok ()) ∧
    (m.setSlot i (plannedEntry lba (planSectors p))).get i =
      plannedEntry lba (planSectors p) ∧
    ((m.setSlot i (plannedEntry lba (planSectors p))).get i).is_unused = false ∧
    (∀ j, j ∈ [1, 2, 3, 4] → j ≠ i →
      (m.setSlot i (plannedEntry lba (planSectors p))).get j = m.get j) := by
  obtain ⟨hi, hu, hfirst⟩ := findFreeSlot_cases m i hfree
  refine ⟨hu, hfirst, ?_, ?_, ?_, ?_⟩
  · simp [mbr_write_step, hfree, hplace, plannedEntry]
  · fin_cases hi <;> simp [MBRTable.setSlot, MBRTable.get]
  · fin_cases hi <;>
      simp [MBRTable.setSlot, MBRTable.get, MBRPartitionEntry.is_unused, plannedEntry]
  · intro j hj hne
    fin_cases hi <;> fin_cases hj <;> simp_all [MBRTable.setSlot, MBRTable.get]

/-- C6 witness: on a fresh 100-sector device with payload 1000 the write step
succeeds, i.e. the populated table is committed. -/
theorem mbr_populates_first_unused_witness :
    (mbr_write_step (MBRTable.new_from 100 512 (0xff, 0xff, 0xff, 0xff))
      ⟨100, []⟩ 1000).2 = Except.ok () := by
  have h := mbr_populates_first_unused
    (MBRTable.new_from 100 512 (0xff, 0xff, 0xff, 0xff)) ⟨100, []⟩ 1000 1 1
    (by decide) (by decide)
  rw [h.2.2.1]

/-- C10: `new_dos_mbr` always commits the freshly initialized table — sector
size 512, disk signature `[0xff, 0xff, 0xff, 0xff]`, all four slots unused —
to sector 0 of the device as its first write, before the slot search and the
placement search; whatever happens afterwards (including both failure exits),
that commit is already in the sector-0 log of the device. -/
theorem new_dos_mbr_commits_fresh_first (d : MBRDisk) (p : Nat) :
    ∃ rest,
      (new_dos_mbr d p).1.sector0Log =
        d.sector0Log ++ MBRTable.new_from d.sizeSectors 512 (0xff, 0xff, 0xff, 0xff) :: rest ∧
      (MBRTable.new_from d.sizeSectors 512 (0xff, 0xff, 0xff, 0xff)).disk_signature =
        (0xff, 0xff, 0xff, 0xff) ∧
      ((MBRTable.new_from d.sizeSectors 512 (0xff, 0xff, 0xff, 0xff)).get 1).is_unused = true ∧
      ((MBRTable.new_from d.sizeSectors 512 (0xff, 0xff, 0xff, 0xff)).get 2).is_unused = true ∧
      ((MBRTable.new_from d.sizeSectors 512 (0xff, 0xff, 0xff, 0xff)).get 3).is_unused = true ∧
      ((MBRTable.new_from d.sizeSectors 512 (0xff, 0xff, 0xff, 0xff)).get 4).is_unused = true := by
  have hfree :
      findFreeSlot (MBRTable.new_from d.sizeSectors 512 (0xff, 0xff, 0xff, 0xff)) = some 1 := rfl
  cases hplace : (MBRTable.new_from d.sizeSectors 512 (0xff, 0xff, 0xff, 0xff)).find_optimal_place
      (planSectors p) with
  | none =>
    refine ⟨[], ?_, rfl, rfl, rfl, rfl, rfl⟩
    simp [new_dos_mbr, mbr_write_step, hfree, hplace, MBRDisk.write_into]
  | some lba =>
    refine ⟨[(MBRTable.new_from d.sizeSectors 512 (0xff, 0xff, 0xff, 0xff)).setSlot 1
      (plannedEntry lba (planSectors p))], ?_, rfl, rfl, rfl, rfl, rfl⟩
    simp [new_dos_mbr, mbr_write_step, hfree, hplace, MBRDisk.write_into, plannedEntry]

/-! ## GPT table write (new_gpt, lines 25-51)

The `gpt` crate operations used by the source are embedded as a trace of
actions plus a device state.  `create_from_device` only builds the in-memory
table (with the caller-supplied random disk GUID); `add_partition` appends one
entry (name, byte size, type GUID, optional per-partition GUID — `None` lets
the crate generate one); `GptTable.write` commits header and partition array;
`ProtectiveMBR::new().overwrite_lba0` overwrites sector 0 with a protective
MBR whose single entry has type 0xEE starting at LBA 1 and spanning the
conventional whole-disk sector count 0xFFFFFFFF. -/

/-- GUID of the "basic data" partition type (`gpt::partition_types::BASIC`). -/
def BASIC : String := "EBD0A0A2-B9E5-4433-87C0-68B6B72699C7"

/-- One GPT partition entry as supplied by the caller of `add_partition`. -/
structure GptPartition where
  name : String
  sizeBytes : Nat
  ptype : String
  flags : Nat
  part_guid : Option Nat
deriving DecidableEq, Repr

/-- The device-visible actions performed by `new_gpt`, in order. -/
inductive GptAction where
  | createTable (disk_guid : Nat)
  | addPartition (p : GptPartition)
  | writeTable (disk_guid : Nat) (parts : List GptPartition)
  | writeProtectiveLBA0 (e : MBRPartitionEntry)
deriving DecidableEq, Repr

/-- Recognizer for the `addPartition` action. -/
def GptAction.isAdd : GptAction → Bool
  | GptAction.addPartition _ => true
  | _ => false

/-- Modelled from the `gpt` crate contract: the protective MBR entry written
by `ProtectiveMBR::new()` — type byte 0xEE, starting at LBA 1, spanning the
conventional whole-disk sector count 0xFFFFFFFF. -/
def protectiveEntry : MBRPartitionEntry :=
  ⟨0, CHS.empty, 0xEE, CHS.empty, 1, 0xFFFFFFFF⟩

/-- The GPT-path device state: the committed table (disk GUID and partition
array) and the content of sector 0. -/
structure GptDisk where
  table : Option (Nat × List GptPartition)
  sector0 : Option MBRPartitionEntry
deriving DecidableEq, Repr

/-- Effect of one action on the device.  `createTable` and `addPartition`
only change the in-memory table, not the device. -/
def GptDisk.apply (d : GptDisk) : GptAction → GptDisk
  | GptAction.createTable _ => d
  | GptAction.addPartition _ => d
  | GptAction.writeTable g ps => { d with table := some (g, ps) }
  | GptAction.writeProtectiveLBA0 e => { d with sector0 := some e }

/-- Run a trace of actions against a device. -/
def GptDisk.run (d : GptDisk) (tr : List GptAction) : GptDisk :=
  tr.foldl GptDisk.apply d

/-- `new_gpt` (lines 25-51): create a fresh table with a random disk GUID
(passed in as `disk_guid`), add one partition named "temporary" of
`iso_size + 512` bytes with type BASIC, flags 0 and no caller GUID, write the
table, then overwrite LBA 0 with a protective MBR. -/
def new_gpt (disk_guid iso_size : Nat) : List GptAction :=
  let part : GptPartition :=
    { name := "temporary"
      sizeBytes := (iso_size + 512) % U64_MOD
      ptype := BASIC
      flags := 0
      part_guid := none }
  [GptAction.createTable disk_guid,
   GptAction.addPartition part,
   GptAction.writeTable disk_guid [part],
   GptAction.writeProtectiveLBA0 protectiveEntry]

/-- C5: a run of `new_gpt` adds exactly one partition — named "temporary", of
type "basic data", spanning `payload + 512` bytes, with no caller-supplied
partition GUID — and after committing the GPT structures (trace position 2)
it writes the protective MBR to LBA 0 (trace position 3, the final action),
leaving sector 0 holding the protective whole-disk entry of type 0xEE. -/
theorem new_gpt_spec (g p : Nat) (hp : p + 512 < U64_MOD) :
    ((new_gpt g p).filter GptAction.isAdd).length = 1 ∧
    GptAction.addPartition ⟨"temporary", p + 512, BASIC, 0, none⟩ ∈ new_gpt g p ∧
    (new_gpt g p).get? 2 = some (GptAction.writeTable g [⟨"temporary", p + 512, BASIC, 0, none⟩]) ∧
    (new_gpt g p).get? 3 = some (GptAction.writeProtectiveLBA0 protectiveEntry) ∧
    (new_gpt g p).length = 4 ∧
    (GptDisk.run ⟨none, none⟩ (new_gpt g p)).table =
      some (g, [⟨"temporary", p + 512, BASIC, 0, none⟩]) ∧
    (GptDisk.run ⟨none, none⟩ (new_gpt g p)).sector0 = some protectiveEntry ∧
    protectiveEntry.sys = 0xEE := by
  have hmod : (p + 512) % U64_MOD = p + 512 := Nat.mod_eq_of_lt hp
  refine ⟨?_, ?_, ?_, ?_, ?_, ?_, ?_, rfl⟩ <;>
    simp [new_gpt, GptAction.isAdd, GptDisk.run, GptDisk.apply, hmod]

/-- C5 witness: the instantiation at disk GUID 7 and payload 1000. -/
theorem new_gpt_spec_witness :
    ((new_gpt 7 1000).filter GptAction.isAdd).length = 1 ∧
    (GptDisk.run ⟨none, none⟩ (new_gpt 7 1000)).sector0 = some protectiveEntry := by
  have h := new_gpt_spec 7 1000 (by decide)
  exact ⟨h.1, h.2.2.2.2.2.2.1⟩

/-! ## Volume label normalization (main, lines 233-242)

```rust
let mut label: &str = iso[2].name.as_ref();
if label.is_empty() { label = "NO_NAME"; }
let mut binding = label.replace(" ", "").replace(".", "").replace("-","");
if binding.len() > 11 {                       // byte length
    binding = binding.chars().take(10).collect::<String>();   // first 10 chars
}
```

A Rust `String` is modelled as its list of characters; `len()` is its UTF-8
byte length (the sum of the UTF-8 sizes of the characters), while `chars().take`
counts characters. -/

/-- `String::replace(pat, "")` for a single-character pattern: drop every
occurrence of that character. -/
def removeChar (c : Char) (s : List Char) : List Char :=
  s.filter (fun x => x ≠ c)

/-- The three `replace` calls of line 237, applied in source order. -/
def stripLabel (s : List Char) : List Char :=
  removeChar (Char.ofNat 45) (removeChar (Char.ofNat 46) (removeChar (Char.ofNat 32) s))

/-- Rust `str::len`: the UTF-8 byte length of the string. -/
def byteLen (s : List Char) : Nat :=
  (s.map Char.utf8Size).sum

/-- Line 234-236: an empty collaborator-supplied name falls back to the fixed
placeholder "NO_NAME". -/
def defaultName (name : List Char) : List Char :=
  if name = [] then String.toList "NO_NAME" else name

/-- Lines 233-242: strip spaces, dots and hyphens, then truncate to the first
10 characters when the byte length exceeds 11. -/
def normalizeLabel (name : List Char) : List Char :=
  if byteLen (stripLabel (defaultName name)) > 11 then
    (stripLabel (defaultName name)).take 10
  else
    stripLabel (defaultName name)

/-- Every character occupies at least one UTF-8 byte. -/
theorem one_le_utf8Size (c : Char) : 1 ≤ c.utf8Size := by
  simp only [Char.utf8Size]
  repeat' split
  all_goals omega

/-- The character count of a string never exceeds its UTF-8 byte length. -/
theorem length_le_byteLen (s : List Char) : s.length ≤ byteLen s := by
  induction s with
  | nil => simp [byteLen]
  | cons c cs ih =>
    have := one_le_utf8Size c
    simp only [byteLen, List.map_cons, List.sum_cons, List.length_cons] at *
    omega

/-- C7: label normalization strips spaces, dots and hyphens; the normalized
label always has at most 11 characters; a stripped result of more than 11
characters is truncated to exactly its first 10 characters; and an empty
collaborator-supplied name is replaced by the placeholder "NO_NAME" before
normalization (which leaves it unchanged). -/
theorem normalizeLabel_spec :
    (∀ name c, c ∈ normalizeLabel name →
      c ≠ Char.ofNat 32 ∧ c ≠ Char.ofNat 46 ∧ c ≠ Char.ofNat 45) ∧
    (∀ name, (normalizeLabel name).length ≤ 11) ∧
    (∀ name, 11 < (stripLabel (defaultName name)).length →
      normalizeLabel name = (stripLabel (defaultName name)).take 10) ∧
    normalizeLabel [] = String.toList "NO_NAME" := by
  refine ⟨?_, ?_, ?_, by decide⟩
  · intro name c hc
    have hmem : c ∈ stripLabel (defaultName name) := by
      unfold normalizeLabel at hc
      by_cases h : byteLen (stripLabel (defaultName name)) > 11
      · rw [if_pos h] at hc
        exact List.take_subset 10 _ hc
      · rw [if_neg h] at hc
        exact hc
    unfold stripLabel removeChar at hmem
    simp only [List.mem_filter, decide_eq_true_eq] at hmem
    exact ⟨hmem.1.1.2, hmem.1.2, hmem.2⟩
  · intro name
    unfold normalizeLabel
    by_cases h : byteLen (stripLabel (defaultName name)) > 11
    · rw [if_pos h]
      have : ((stripLabel (defaultName name)).take 10).length ≤ 10 := by
        simp [List.length_take]
      omega
    · rw [if_neg h]
      have := length_le_byteLen (stripLabel (defaultName name))
      omega
  · intro name h
    have hb := length_le_byteLen (stripLabel (defaultName name))
    unfold normalizeLabel
    rw [if_pos (by omega)]

/-- C7 witness: a 12-character stripped name is truncated to its first 10
characters, and the placeholder case holds. -/
theorem normalizeLabel_spec_witness :
    normalizeLabel (List.replicate 12 (Char.ofNat 65)) =
      (stripLabel (defaultName (List.replicate 12 (Char.ofNat 65)))).take 10 ∧
    normalizeLabel [] = String.toList "NO_NAME" := by
  refine ⟨normalizeLabel_spec.2.2.1 (List.replicate 12 (Char.ofNat 65)) (by decide),
    normalizeLabel_spec.2.2.2⟩

/-! ## FAT volume label (make_fat, lines 396-399)

```rust
let mut volume_label = [0u8; 11];
for (i, &b) in label.as_bytes().iter().take(11).enumerate() {
    volume_label[i] = b;
}
```

The byte string of the label is modelled as a list of byte values; the loop is the
fold of index-wise assignments over the enumerated first 11 bytes, starting
from the all-zero 11-byte array. -/

/-- The 11-byte volume-label field built by `make_fat` and passed to the
`fatfs` formatter. -/
def fatVolumeLabel (labelBytes : List Nat) : List Nat :=
  ((labelBytes.take 11).enum).foldl (fun acc q => acc.set q.1 q.2) (List.replicate 11 0)

/-- The volume-label field as the spec words it: the bytes of the label truncated
to 11, right-padded with space characters (byte 0x20). -/
def specSpacePadded (labelBytes : List Nat) : List Nat :=
  labelBytes.take 11 ++ List.replicate (11 - (labelBytes.take 11).length) 32

/-- Folding index-wise assignments of the elements of `bs` at positions
`i, i+1, ...` into `acc` splices `bs` into `acc` at position `i`. -/
theorem foldl_set_enumFrom (bs : List Nat) : ∀ (i : Nat) (acc : List Nat),
    i + bs.length ≤ acc.length →
    (List.enumFrom i bs).foldl (fun a q => a.set q.1 q.2) acc
      = acc.take i ++ bs ++ acc.drop (i + bs.length) := by
  induction bs with
  | nil => intro i acc h; simp
  | cons b bs ih =>
    intro i acc h
    simp only [List.enumFrom_cons, List.foldl_cons, List.length_cons] at h ⊢
    have hlt : i < acc.length := by omega
    have hlen : (acc.take i).length = i := by simp; omega
    rw [ih (i + 1) (acc.set i b) (by simp; omega)]
    rw [List.set_eq_take_append_cons_drop, if_pos hlt]
    rw [List.take_append_eq_append_take, List.drop_append_eq_append_drop]
    have h1 : (acc.take i).take (i + 1) = acc.take i :=
      List.take_of_length_le (by omega)
    have h2 : i + 1 - (acc.take i).length = 1 := by omega
    have h3 : (acc.take i).drop (i + 1 + bs.length) = [] :=
      List.drop_eq_nil_of_le (by omega)
    have h4 : i + 1 + bs.length - (acc.take i).length = 1 + bs.length := by omega
    rw [h1, h2, h3, h4]
    have h5 : List.drop (1 + bs.length) (b :: acc.drop (i + 1))
        = acc.drop (i + (bs.length + 1)) := by
      have : 1 + bs.length = bs.length + 1 := by omega
      rw [this]
      simp only [List.drop_succ_cons, List.drop_drop]
      congr 1
      omega
    rw [h5]
    simp [List.take_succ_cons]

/-- C8 (counterexample): for the two-byte label "AB" the field built by
`make_fat` is padded with zero bytes, not with spaces, so it differs from the
space-padded field the claim describes. -/
theorem fat_label_not_space_padded_cex :
    fatVolumeLabel [65, 66] ≠ specSpacePadded [65, 66] := by
  decide

/-- C8 (amended): the FAT path passes the formatter a volume-label field of
exactly 11 bytes consisting of the bytes of the label truncated to 11,
right-padded with zero bytes (0x00), not spaces. -/
theorem fat_label_zero_padded (labelBytes : List Nat) :
    fatVolumeLabel labelBytes
      = labelBytes.take 11 ++ List.replicate (11 - (labelBytes.take 11).length) 0 ∧
    (fatVolumeLabel labelBytes).length = 11 := by
  have hlen : (labelBytes.take 11).length ≤ 11 := by simp
  have h1 : fatVolumeLabel labelBytes
      = labelBytes.take 11 ++ List.replicate (11 - (labelBytes.take 11).length) 0 := by
    unfold fatVolumeLabel
    rw [List.enum_eq_enumFrom, foldl_set_enumFrom _ 0 _ (by simp)]
    simp only [List.take_zero, List.nil_append, Nat.zero_add, List.drop_replicate]
  refine ⟨h1, ?_⟩
  rw [h1]
  simp only [List.length_append, List.length_replicate, List.length_take]
  omega

/-! ## Image copy loop (write_image, lines 326-358)

```rust
let mut bytes_written: u64 = 0;
let mut buffer = [0u8; 65536];
loop {
    let bytes_read = match file.read(&mut buffer) {
        Ok(0) => break,              // end of file
        Ok(n) => n, Err(e) => return Err(..),
    };
    dest.write_all(&buffer[..bytes_read])?;
    bytes_written += bytes_read as u64;
    let progress = (bytes_written as f64 / file_size as f64) * 100.0;
    ... // render progress bar and print
}
dest.flush()?;
```

The errorless run is modelled over the remaining bytes of the source file: each
read returns the next chunk of up to 65536 bytes, and a read at end of file
returns the empty chunk, which breaks the loop.  Reported percentages are
modelled over `ℚ`; at the final chunk `bytes_written = file_size`, and IEEE
double division of a finite nonzero value by itself is exactly 1, so the
rational model agrees with the `f64` computation at the final report. -/

/-- One source-visible run of the copy loop: current remaining source bytes,
accumulated `bytes_written`, destination bytes written so far, and the list
of reported percentages.  Returns the final three. -/
def copyLoop (file_size : Nat) (src : List Nat) (bytes_written : Nat)
    (dest : List Nat) (reports : List ℚ) : Nat × List Nat × List ℚ :=
  if h : src = [] then (bytes_written, dest, reports)
  else
    copyLoop file_size (src.drop 65536)
      (bytes_written + (src.take 65536).length)
      (dest ++ src.take 65536)
      (reports ++
        [((bytes_written + (src.take 65536).length : Nat) : ℚ) / (file_size : ℚ) * 100])
termination_by src.length
decreasing_by
  simp only [List.length_drop]
  have hpos : 0 < src.length := List.length_pos.mpr h
  omega

/-- Outcome of an errorless `write_image` run. -/
structure CopyResult where
  bytes_written : Nat
  dest : List Nat
  reports : List ℚ
  flushed : Bool
deriving DecidableEq, Repr

/-- `write_image` on an errorless run: `file_size` is the metadata
length, the loop runs to end of file, and the destination is flushed before
returning success. -/
def write_image (src : List Nat) : CopyResult :=
  { bytes_written := (copyLoop src.length src 0 [] []).1
    dest := (copyLoop src.length src 0 [] []).2.1
    reports := (copyLoop src.length src 0 [] []).2.2
    flushed := true }

/-- The copy loop accumulates exactly the source: final `bytes_written` grows
by the remaining length, the destination receives the remaining bytes, and
the last report (when the remaining source is nonempty) is the percentage of
the final total. -/
theorem copyLoop_props : ∀ (n fs : Nat) (src : List Nat) (bw : Nat) (d : List Nat)
    (r : List ℚ), src.length ≤ n →
    (copyLoop fs src bw d r).1 = bw + src.length ∧
    (copyLoop fs src bw d r).2.1 = d ++ src ∧
    (src = [] → (copyLoop fs src bw d r).2.2 = r) ∧
    (src ≠ [] → (copyLoop fs src bw d r).2.2.getLast? =
      some (((bw + src.length : Nat) : ℚ) / (fs : ℚ) * 100)) := by
  intro n
  induction n with
  | zero =>
    intro fs src bw d r h
    have hsrc : src = [] := List.eq_nil_of_length_eq_zero (by omega)
    subst hsrc
    rw [copyLoop]
    simp
  | succ n ih =>
    intro fs src bw d r h
    by_cases hsrc : src = []
    · subst hsrc
      rw [copyLoop]
      simp
    · rw [copyLoop, dif_neg hsrc]
      have hpos : 0 < src.length := List.length_pos.mpr hsrc
      have hdrop : (src.drop 65536).length ≤ n := by
        simp only [List.length_drop]
        omega
      obtain ⟨ih1, ih2, ih3, ih4⟩ := ih fs (src.drop 65536)
        (bw + (src.take 65536).length) (d ++ src.take 65536)
        (r ++ [((bw + (src.take 65536).length : Nat) : ℚ) / (fs : ℚ) * 100]) hdrop
      have hsum : (src.take 65536).length + (src.drop 65536).length = src.length := by
        simp only [List.length_take, List.length_drop]
        omega
      refine ⟨?_, ?_, ?_, ?_⟩
      · rw [ih1]
        omega
      · rw [ih2, List.append_assoc, List.take_append_drop]
      · intro he
        exact absurd he hsrc
      · intro _
        by_cases hd : src.drop 65536 = []
        · rw [ih3 hd, List.getLast?_concat]
          have hlen : (src.take 65536).length = src.length := by
            have h0 : (src.drop 65536).length = 0 := by rw [hd]; rfl
            simp only [List.length_drop] at h0
            simp only [List.length_take]
            omega
          rw [hlen]
        · rw [ih4 hd]
          rw [show bw + (src.take 65536).length + (src.drop 65536).length
              = bw + src.length from by omega]

/-- C9 (counterexample): on an empty source (size `N = 0`) the loop breaks on
the immediate zero-byte read and emits no progress report at all, so the
reported progress never reaches 100%. -/
theorem write_image_empty_cex :
    ¬ (100 ∈ (write_image ([] : List Nat)).reports) := by
  have h : (write_image ([] : List Nat)).reports = [] := by
    rw [write_image]
    rw [copyLoop]
    rfl
  rw [h]
  simp

/-- C9 (amended): for every nonempty source of `N` bytes, the errorless copy
loop terminates on the zero-byte read at end of file with
`bytes_written = N`, the destination having received exactly the source
bytes, the last reported progress exactly 100%, and the destination flushed
before success is returned.  (On an empty source it still terminates with
`bytes_written = 0 = N` and a flush, but reports nothing.) -/
theorem write_image_spec (src : List Nat) (h : src ≠ []) :
    (write_image src).bytes_written = src.length ∧
    (write_image src).dest = src ∧
    ((write_image src).reports).getLast? = some 100 ∧
    (write_image src).flushed = true := by
  obtain ⟨h1, h2, h3, h4⟩ := copyLoop_props src.length src.length src 0 [] [] (le_refl _)
  refine ⟨by simp [write_image, h1], by simp [write_image, h2], ?_, rfl⟩
  simp only [write_image]
  rw [h4 h]
  have hlen : (src.length : ℚ) ≠ 0 := by
    have hpos : 0 < src.length := List.length_pos.mpr h
    exact_mod_cast hpos.ne'
  rw [Nat.zero_add, div_self hlen, one_mul]

/-- C9 witness: a one-byte source yields `bytes_written = 1` and a final
report of exactly 100%. -/
theorem write_image_spec_witness :
    (write_image [7]).bytes_written = 1 ∧
    ((write_image [7]).reports).getLast? = some 100 := by
  have h := write_image_spec [7] (by decide)
  exact ⟨h.1, h.2.2.1⟩

/-! ## Orchestrator stage sequencing (main, lines 259-324)

After the confirmation prompt, `main` runs: the table stage (dispatching to
`new_dos_mbr` or `new_gpt` and aborting with exit code 1 on failure), the
format stage (dispatching on the filesystem string, aborting on failure), and
the final writing step.  The call `write_image(file_path, dest_path)?` on
line 314 is commented out: the final step only prints the pending bar, the
DONE transition, the line "Btw nothing happened..." and the success message.
The two stage outcomes are abstracted as booleans (the collaborating I/O
results); the observable behavior is the ordered list of events plus the
process exit code. -/

/-- Observable events of the post-confirmation pipeline. -/
inductive Ev where
  | pending (stage : String)
  | stageDone (stage : String)
  | stageFailed (stage : String)
  | fatal (msg : String)
  | info (msg : String)
  | callWriteImage (src dest : String)
deriving DecidableEq, Repr

/-- Recognizer for an invocation of the image-copy routine. -/
def Ev.isCopyCall : Ev → Bool
  | Ev.callWriteImage _ _ => true
  | _ => false

/-- Lines 259-324 of `main`: the three stages after the user confirms, as the
list of emitted events paired with the process exit code.  `tableOk` and
`fmtOk` abstract the results of the table-write and format calls. -/
def pipelineRun (table fs : String) (tableOk fmtOk : Bool) : List Ev × Nat :=
  let tStage := "Creating a " ++ table ++ " partition table"
  let fStage := "Formatting the volume as " ++ fs
  let wStage := "Writing the iso to the volume"
  if table ≠ "dos" ∧ table ≠ "gpt" then
    ([Ev.pending tStage, Ev.stageFailed tStage, Ev.fatal "Invalid partition table."], 1)
  else if tableOk = false then
    ([Ev.pending tStage, Ev.stageFailed tStage, Ev.fatal "Error creating partition table."], 1)
  else if fs ≠ "fat32" ∧ fs ≠ "fat16" ∧ fs ≠ "exfat" then
    ([Ev.pending tStage, Ev.stageDone tStage, Ev.pending fStage, Ev.stageFailed fStage,
      Ev.fatal "Invalid filesystem."], 1)
  else if fmtOk = false then
    ([Ev.pending tStage, Ev.stageDone tStage, Ev.pending fStage, Ev.stageFailed fStage,
      Ev.fatal "Error formatting volume."], 1)
  else
    ([Ev.pending tStage, Ev.stageDone tStage, Ev.pending fStage, Ev.stageDone fStage,
      Ev.pending wStage, Ev.stageDone wStage, Ev.info "Btw nothing happened...",
      Ev.info "Successfully written an image to disk!"], 0)

/-- C1: on every successful run (valid table kind, table stage succeeded,
valid filesystem kind, format stage succeeded) the pipeline emits no
invocation of the image-copy routine `write_image` whatsoever — so no bytes
of the source image are written to the partition — yet it emits the DONE
status for the writing step and the success message, and exits with code 0. -/
theorem pipeline_final_step_no_copy (table fs : String) (tableOk fmtOk : Bool)
    (htable : table = "dos" ∨ table = "gpt") (htok : tableOk = true)
    (hfs : fs = "fat32" ∨ fs = "fat16" ∨ fs = "exfat") (hfok : fmtOk = true) :
    ((pipelineRun table fs tableOk fmtOk).1.filter Ev.isCopyCall) = [] ∧
    Ev.stageDone "Writing the iso to the volume" ∈ (pipelineRun table fs tableOk fmtOk).1 ∧
    Ev.info "Successfully written an image to disk!" ∈ (pipelineRun table fs tableOk fmtOk).1 ∧
    (pipelineRun table fs tableOk fmtOk).2 = 0 := by
  subst htok hfok
  rcases htable with h | h <;> subst h <;>
    rcases hfs with h | h | h <;> subst h <;>
      refine ⟨by decide, by decide, by decide, by decide⟩

/-- C1 witness: the successful dos/fat32 run. -/
theorem pipeline_final_step_no_copy_witness :
    ((pipelineRun "dos" "fat32" true true).1.filter Ev.isCopyCall) = [] ∧
    (pipelineRun "dos" "fat32" true true).2 = 0 := by
  have h := pipeline_final_step_no_copy "dos" "fat32" true true (Or.inl rfl) rfl
    (Or.inl rfl) rfl
  exact ⟨h.1, h.2.2.2⟩
